import Mathlib

/-! Task-list REST handlers (`precode.go`).

A shallow embedding of the four HTTP handlers of `precode.go` and of the
package-level `tasks` map they share, followed by theorems about them.

Modelling conventions:

* the package-level variable `tasks` is threaded explicitly: every handler
  takes the map and returns the response it writes together with the map
  it leaves behind;
* a Go `map[string]Task` is an association list, read with `mapGet`,
  written with `mapSet` (Go `m[k] = v`) and `mapDelete` (Go `delete(m, k)`);
* a Go `[]string` is an `Option (List String)`: `none` is the nil slice
  (what `json.Unmarshal` leaves for an absent or `null` field), `some xs`
  a non-nil slice, possibly of length zero;
* of an incoming `*http.Request` the handlers use three things only: the
  outcome of `json.Unmarshal` on the body, `r.UserAgent()` and
  `chi.URLParam(r, "id")`;
* `uuid.NewV7()` reads the clock and a random source; its outcome at the
  call is an argument of `addTask`;
* a Go `string` is a Lean `String`, a sequence of Unicode characters.
-/

namespace Precode

/-! ## Data model -/

/-- Go `[]string`. -/
abbrev StringSlice := Option (List String)

/-- Go builtin `len` on a `[]string`; the nil slice has length zero. -/
def len : StringSlice → Nat
  | none => 0
  | some xs => xs.length

/-- Go builtin `append` of one element; appending to the nil slice allocates. -/
def append : StringSlice → String → StringSlice
  | none, x => some [x]
  | some xs, x => some (xs ++ [x])

/-- The `Task` struct. -/
structure Task where
  ID : String
  Description : String
  Note : String
  Applications : StringSlice
deriving DecidableEq, Repr

/-- Go `map[string]Task`. -/
abbrev TaskMap := List (String × Task)

/-- Go `v, ok := m[id]`: `some v` when `ok`, `none` otherwise. -/
def mapGet : TaskMap → String → Option Task
  | [], _ => none
  | (k, v) :: m, id => if k = id then some v else mapGet m id

/-- Go `delete(m, id)`. -/
def mapDelete (m : TaskMap) (id : String) : TaskMap :=
  m.filter (fun e => decide (e.1 ≠ id))

/-- Go `m[id] = v`: the binding of `id`, if any, is replaced. -/
def mapSet (m : TaskMap) (id : String) (v : Task) : TaskMap :=
  (id, v) :: mapDelete m id

/-- The keys of a map. -/
def mapKeys (m : TaskMap) : List String := m.map Prod.fst

/-- The package-level `tasks` map as initialised at start-up. -/
def tasks : TaskMap :=
  [ ("1",
      { ID := "1"
        Description := "Сделать финальное задание темы REST API"
        Note := "Если сегодня сделаю, то завтра будет свободный день. Ура!"
        Applications := some ["VS Code", "Terminal", "git"] }),
    ("2",
      { ID := "2"
        Description := "Протестировать финальное задание с помощью Postmen"
        Note := "Лучше это делать в процессе разработки, каждый раз, когда запускаешь сервер и проверяешь хендлер"
        Applications := some ["VS Code", "Terminal", "git", "Postman"] }) ]

/-! ## HTTP plumbing -/

/-- What a handler has written to its `http.ResponseWriter` when it returns. -/
structure Response where
  status : Nat
  contentType : String
  body : String
deriving DecidableEq, Repr

/-- What the handlers read from a `*http.Request`. -/
structure Request where
  /-- Outcome of `json.Unmarshal(reqBody, &task)` on a zero `Task`: the
  filled task, or the text of the error. -/
  decoded : Except String Task
  /-- Value of `r.UserAgent()`; empty when the header is missing. -/
  userAgent : String
  /-- Value of `chi.URLParam(r, "id")`. -/
  urlParamId : String

abbrev StatusOK : Nat := 200
abbrev StatusCreated : Nat := 201
abbrev StatusBadRequest : Nat := 400
abbrev StatusInternalServerError : Nat := 500

/-- Library `http.Error`: plain-text content type, the status code, and the
message followed by a newline. -/
def httpError (error : String) (code : Nat) : Response :=
  { status := code, contentType := "text/plain; charset=utf-8", body := error ++ "\n" }

/-! ## `encoding/json` on the two types the handlers marshal

`json.Marshal` with its default HTML escaping, as of Go 1.22. -/

def hexDigit (n : Nat) : Char := "0123456789abcdef".toList.getD n '0'

/-- Encoding of one character inside a JSON string literal. -/
def encodeChar (c : Char) : String :=
  if c = '\\' then "\\\\"
  else if c = '"' then "\\\""
  else if c = '\x08' then "\\b"
  else if c = '\x0c' then "\\f"
  else if c = '\n' then "\\n"
  else if c = '\r' then "\\r"
  else if c = '\t' then "\\t"
  else if c.toNat < 0x20 ∨ c = '<' ∨ c = '>' ∨ c = '&' then
    "\\u00" ++ String.mk [hexDigit (c.toNat / 16), hexDigit (c.toNat % 16)]
  else if c.toNat = 0x2028 ∨ c.toNat = 0x2029 then
    "\\u202" ++ String.mk [hexDigit (c.toNat % 16)]
  else String.mk [c]

/-- A Go string as a JSON string literal. -/
def encodeString (s : String) : String :=
  "\"" ++ String.join (s.toList.map encodeChar) ++ "\""

/-- A `[]string` as JSON: `null` for the nil slice, an array otherwise. -/
def encodeStringSlice : StringSlice → String
  | none => "null"
  | some xs => "[" ++ ",".intercalate (xs.map encodeString) ++ "]"

/-- A `Task` as a JSON object, fields in declaration order under their tags. -/
def encodeTask (t : Task) : String :=
  "\x7b\"id\":" ++ encodeString t.ID ++
  ",\"description\":" ++ encodeString t.Description ++
  ",\"note\":" ++ encodeString t.Note ++
  ",\"applications\":" ++ encodeStringSlice t.Applications ++ "\x7d"

/-- Library `json.Marshal` on a `Task`. Strings and slices of strings have
no failing case, so the error result is never produced. -/
def jsonMarshalTask (t : Task) : Except String String := .ok (encodeTask t)

/-- Library `json.Marshal` on the map: an object whose members are ordered
by key. -/
def jsonMarshalTasks (m : TaskMap) : Except String String :=
  .ok ("\x7b" ++ ",".intercalate
    ((m.insertionSort (fun a b => a.1 ≤ b.1)).map
      (fun e => encodeString e.1 ++ ":" ++ encodeTask e.2)) ++ "\x7d")

/-! ## The handlers -/

/-- Handler `getTasks`. -/
def getTasks (tasks : TaskMap) (_r : Request) : Response × TaskMap :=
  match jsonMarshalTasks tasks with
  | .error err => (httpError err StatusInternalServerError, tasks)
  | .ok resp => ({ status := StatusOK, contentType := "application/json", body := resp }, tasks)

/-- Handler `addTask`. `newV7` is what `uuid.NewV7()` yields if it is called:
the `String()` form of the identifier, or the error. -/
def addTask (tasks : TaskMap) (r : Request) (newV7 : Except String String) :
    Response × TaskMap :=
  match r.decoded with
  | .error err => (httpError err StatusBadRequest, tasks)
  | .ok task =>
    -- the ID is generated when the request carries none
    match (if task.ID = "" then
            (match newV7 with
             | .ok uuid => some { task with ID := uuid }
             | .error _ => none)
           else some task) with
    | none => (httpError "Cant create ID." StatusBadRequest, tasks)
    | some task =>
      -- the applications default to the user agent
      match (if len task.Applications = 0 then
              (if r.userAgent = "" then none
               else some { task with Applications := append task.Applications r.userAgent })
             else some task) with
      | none =>
        (httpError
          "No Applications data in request, and cant get data from User-Agent Header"
          StatusBadRequest, tasks)
      | some task =>
        -- an existing ID is never overwritten
        match mapGet tasks task.ID with
        | some _ =>
          (httpError
            ("Cant create task. ID conflict, task with ID = [" ++ task.ID ++ "] already exists.")
            StatusBadRequest, tasks)
        | none =>
          ({ status := StatusCreated, contentType := "application/json", body := "" },
            mapSet tasks task.ID task)

/-- Handler `getTask`. -/
def getTask (tasks : TaskMap) (r : Request) : Response × TaskMap :=
  let id := r.urlParamId
  match mapGet tasks id with
  | none =>
    (httpError ("No task found with id = [" ++ id ++ "]. Nothing to show.") StatusBadRequest,
      tasks)
  | some task =>
    match jsonMarshalTask task with
    | .error err => (httpError err StatusBadRequest, tasks)
    | .ok resp =>
      ({ status := StatusOK, contentType := "application/json", body := resp }, tasks)

/-- Handler `deleteTask`. -/
def deleteTask (tasks : TaskMap) (r : Request) : Response × TaskMap :=
  let id := r.urlParamId
  match mapGet tasks id with
  | none =>
    (httpError ("No task found with id = [" ++ id ++ "]. Nothing to delete.") StatusBadRequest,
      tasks)
  | some _ =>
    let tasks := mapDelete tasks id
    match mapGet tasks id with
    | some _ =>
      (httpError
        ("Something goes wrong when we try to delete task with id = [" ++ id ++ "].")
        StatusBadRequest, tasks)
    | none =>
      ({ status := StatusOK, contentType := "application/json", body := "" }, tasks)

/-- The routes registered in `main`, each with what its handler reads. -/
inductive Call where
  | getTasks (r : Request)
  | addTask (r : Request) (newV7 : Except String String)
  | getTask (r : Request)
  | deleteTask (r : Request)

/-- One request served by the router of `main`. -/
def serve (m : TaskMap) : Call → Response × TaskMap
  | .getTasks r => getTasks m r
  | .addTask r newV7 => addTask m r newV7
  | .getTask r => getTask m r
  | .deleteTask r => deleteTask m r

/-- The map left behind after serving a sequence of requests, one at a time. -/
def run (m : TaskMap) (calls : List Call) : TaskMap :=
  calls.foldl (fun m c => (serve m c).2) m

/-! ## Vocabulary of the statements -/

/-- The id a create request ends up with: the one it supplies, or, when that
one is empty, the generated one; `none` when generation is needed and fails. -/
def finalID (t : Task) (newV7 : Except String String) : Option String :=
  if t.ID = "" then
    (match newV7 with
     | .ok uuid => some uuid
     | .error _ => none)
  else some t.ID

/-- The applications a created task ends up with: the supplied ones, or the
user agent alone when none are supplied. -/
def finalApplications (t : Task) (userAgent : String) : StringSlice :=
  if len t.Applications = 0 then some [userAgent] else t.Applications

/-- The task a create request stores under its final id. -/
def createdTask (t : Task) (id : String) (userAgent : String) : Task :=
  { ID := id, Description := t.Description, Note := t.Note,
    Applications := finalApplications t userAgent }

/-- A request for the routes with an id in the path; it carries no body. -/
def requestFor (id : String) : Request :=
  { decoded := .error "unexpected end of JSON input", userAgent := "curl/8.5.0",
    urlParamId := id }

/-- The four acceptance conditions of a create request, in order: the body
parses, an id is supplied or generated, applications or a user agent are
present, and the final id is not yet a key. -/
def Accepted (m : TaskMap) (r : Request) (newV7 : Except String String) : Prop :=
  ∃ t id, r.decoded = .ok t ∧
    ((t.ID ≠ "" ∧ id = t.ID) ∨ (t.ID = "" ∧ newV7 = .ok id)) ∧
    (len t.Applications ≠ 0 ∨ r.userAgent ≠ "") ∧
    id ∉ mapKeys m

/-- Store invariant: every key is the `ID` of the task stored under it, and
every stored task has at least one application. -/
def StoreInvariant (m : TaskMap) : Prop :=
  ∀ k t, mapGet m k = some t → k = t.ID ∧ len t.Applications ≠ 0

/-! ## Concrete requests used in the examples -/

/-- Body `\x7b"id":"1"\x7d` sent without a `User-Agent` header. -/
def postExistingIdNoAgent : Request :=
  { decoded := .ok { ID := "1", Description := "", Note := "", Applications := none },
    userAgent := "", urlParamId := "" }

/-- Body `\x7b"id":"3"\x7d` sent without a `User-Agent` header. -/
def postFreshIdNoAgent : Request :=
  { decoded := .ok { ID := "3", Description := "", Note := "", Applications := none },
    userAgent := "", urlParamId := "" }

/-- Body `\x7b"description":"x","applications":[]\x7d` sent without a `User-Agent` header. -/
def postNoIdNoAgent : Request :=
  { decoded := .ok { ID := "", Description := "x", Note := "", Applications := some [] },
    userAgent := "", urlParamId := "" }

/-- Body `\x7b"description":"x"\x7d` sent with `User-Agent: curl`. -/
def postDescriptionCurl : Request :=
  { decoded := .ok { ID := "", Description := "x", Note := "", Applications := none },
    userAgent := "curl", urlParamId := "" }

/-- Body `\x7b"id":"3","description":"d","note":"n","applications":["vim"]\x7d` sent
with `User-Agent: curl`. -/
def postFullTask : Request :=
  { decoded := .ok { ID := "3", Description := "d", Note := "n", Applications := some ["vim"] },
    userAgent := "curl", urlParamId := "" }

/-- A version-7 UUID in its `String()` form. -/
def sampleUUID : String := "0192f0c1-7c00-7000-8000-000000000001"

/-- Another version-7 UUID in its `String()` form. -/
def otherUUID : String := "0192f0c1-7c01-7000-8000-000000000002"

/-- A client supplies `sampleUUID` as the id of its task. -/
def postClientChosenUUID : Request :=
  { decoded := .ok { ID := sampleUUID, Description := "mine", Note := "",
                     Applications := none },
    userAgent := "curl", urlParamId := "" }

/-- The seeded map after the request `postClientChosenUUID` was served. -/
def tasksWithClientUUID : TaskMap :=
  (addTask tasks postClientChosenUUID (.ok otherUUID)).2

/-! ## Lemmas on the map operations -/

theorem mapGet_cons (k : String) (v : Task) (m : TaskMap) (id : String) :
    mapGet ((k, v) :: m) id = if k = id then some v else mapGet m id := rfl

theorem mapDelete_cons (k : String) (v : Task) (m : TaskMap) (id : String) :
    mapDelete ((k, v) :: m) id = if k = id then mapDelete m id else (k, v) :: mapDelete m id := by
  by_cases h : k = id <;> simp [mapDelete, List.filter_cons, h]

theorem mapKeys_cons (k : String) (v : Task) (m : TaskMap) :
    mapKeys ((k, v) :: m) = k :: mapKeys m := rfl

theorem mapGet_eq_none_iff (m : TaskMap) (id : String) :
    mapGet m id = none ↔ id ∉ mapKeys m := by
  induction m with
  | nil => simp [mapGet, mapKeys]
  | cons e m ih =>
    obtain ⟨k, v⟩ := e
    rw [mapGet_cons, mapKeys_cons, List.mem_cons, not_or]
    by_cases h : k = id
    · simp [h]
    · have h2 : ¬ id = k := fun h3 => h h3.symm
      simp [h, h2, ih]

theorem mapGet_isSome_iff (m : TaskMap) (id : String) :
    (∃ v, mapGet m id = some v) ↔ id ∈ mapKeys m := by
  rw [← not_iff_not, ← mapGet_eq_none_iff]
  cases mapGet m id <;> simp

theorem mapGet_mapDelete_self (m : TaskMap) (id : String) :
    mapGet (mapDelete m id) id = none := by
  induction m with
  | nil => rfl
  | cons e m ih =>
    obtain ⟨k, v⟩ := e
    rw [mapDelete_cons]
    by_cases h : k = id
    · rw [if_pos h]; exact ih
    · rw [if_neg h, mapGet_cons, if_neg h]; exact ih

theorem mapGet_mapDelete_ne (m : TaskMap) (id k : String) (hk : k ≠ id) :
    mapGet (mapDelete m id) k = mapGet m k := by
  induction m with
  | nil => rfl
  | cons e m ih =>
    obtain ⟨k2, v⟩ := e
    rw [mapDelete_cons, mapGet_cons]
    by_cases h : k2 = id
    · have h2 : ¬ k2 = k := fun h3 => hk (h3 ▸ h)
      rw [if_pos h, if_neg h2]; exact ih
    · rw [if_neg h, mapGet_cons, ih]

theorem mapDelete_of_not_mem (m : TaskMap) (id : String) (h : id ∉ mapKeys m) :
    mapDelete m id = m := by
  induction m with
  | nil => rfl
  | cons e m ih =>
    obtain ⟨k, v⟩ := e
    rw [mapKeys_cons, List.mem_cons, not_or] at h
    have h1 : ¬ k = id := fun h3 => h.1 h3.symm
    rw [mapDelete_cons, if_neg h1, ih h.2]

theorem not_mem_mapKeys_mapDelete (m : TaskMap) (id : String) :
    id ∉ mapKeys (mapDelete m id) :=
  (mapGet_eq_none_iff _ _).1 (mapGet_mapDelete_self m id)

theorem mapGet_mapSet (m : TaskMap) (id : String) (v : Task) (k : String) :
    mapGet (mapSet m id v) k = if k = id then some v else mapGet m k := by
  by_cases h : k = id
  · simp [mapSet, mapGet, h]
  · have h2 : ¬ id = k := fun h3 => h h3.symm
    simp [mapSet, mapGet, h, h2, mapGet_mapDelete_ne m id k h]

/-! ## The handlers, branch by branch -/

theorem addTask_of_decode_error (m : TaskMap) (r : Request) (g : Except String String)
    (err : String) (hdec : r.decoded = .error err) :
    addTask m r g = (httpError err 400, m) := by
  simp [addTask, hdec]

theorem addTask_of_no_id (m : TaskMap) (r : Request) (g : Except String String) (t : Task)
    (hdec : r.decoded = .ok t) (hid : finalID t g = none) :
    addTask m r g = (httpError "Cant create ID." 400, m) := by
  unfold finalID at hid
  by_cases h : t.ID = ""
  · cases g with
    | error e => simp [addTask, hdec, h]
    | ok u => simp [h] at hid
  · simp [h] at hid

theorem addTask_of_no_applications (m : TaskMap) (r : Request) (g : Except String String)
    (t : Task) (id : String) (hdec : r.decoded = .ok t) (hid : finalID t g = some id)
    (happs : len t.Applications = 0) (hua : r.userAgent = "") :
    addTask m r g =
      (httpError "No Applications data in request, and cant get data from User-Agent Header" 400,
        m) := by
  unfold finalID at hid
  by_cases h : t.ID = ""
  · cases g with
    | error e => simp [h] at hid
    | ok u => simp [addTask, hdec, h, happs, hua]
  · simp [addTask, hdec, h, happs, hua]

theorem addTask_of_conflict (m : TaskMap) (r : Request) (g : Except String String)
    (t : Task) (id : String) (hdec : r.decoded = .ok t) (hid : finalID t g = some id)
    (hcheck : len t.Applications ≠ 0 ∨ r.userAgent ≠ "") (hkey : id ∈ mapKeys m) :
    addTask m r g =
      (httpError ("Cant create task. ID conflict, task with ID = [" ++ id ++ "] already exists.")
        400, m) := by
  obtain ⟨v, hv⟩ := (mapGet_isSome_iff m id).2 hkey
  unfold finalID at hid
  by_cases h : t.ID = ""
  · cases g with
    | error e => simp [h] at hid
    | ok u =>
      simp only [h, if_true, Option.some.injEq] at hid
      subst hid
      by_cases ha : len t.Applications = 0
      · have hua : ¬ r.userAgent = "" := by
          rcases hcheck with h1 | h1
          · exact absurd ha h1
          · exact h1
        simp [addTask, hdec, h, ha, hua, hv]
      · simp [addTask, hdec, h, ha, hv]
  · simp only [h, if_false, Option.some.injEq] at hid
    subst hid
    by_cases ha : len t.Applications = 0
    · have hua : ¬ r.userAgent = "" := by
        rcases hcheck with h1 | h1
        · exact absurd ha h1
        · exact h1
      simp [addTask, hdec, h, ha, hua, hv]
    · simp [addTask, hdec, h, ha, hv]

theorem append_of_len_zero (s : StringSlice) (x : String) (h : len s = 0) :
    append s x = some [x] := by
  cases s with
  | none => rfl
  | some xs =>
    have : xs = [] := List.length_eq_zero.1 h
    subst this
    rfl

theorem addTask_of_fresh (m : TaskMap) (r : Request) (g : Except String String)
    (t : Task) (id : String) (hdec : r.decoded = .ok t) (hid : finalID t g = some id)
    (hcheck : len t.Applications ≠ 0 ∨ r.userAgent ≠ "") (hkey : id ∉ mapKeys m) :
    addTask m r g =
      ({ status := 201, contentType := "application/json", body := "" },
        (id, createdTask t id r.userAgent) :: m) := by
  have hv := (mapGet_eq_none_iff m id).2 hkey
  have hd := mapDelete_of_not_mem m id hkey
  unfold finalID at hid
  unfold createdTask finalApplications
  by_cases h : t.ID = ""
  · cases g with
    | error e => simp [h] at hid
    | ok u =>
      simp only [h, if_true, Option.some.injEq] at hid
      subst hid
      by_cases ha : len t.Applications = 0
      · have hua : ¬ r.userAgent = "" := by
          rcases hcheck with h1 | h1
          · exact absurd ha h1
          · exact h1
        simp [addTask, hdec, h, ha, hua, hv, mapSet, hd, append_of_len_zero]
      · simp [addTask, hdec, h, ha, hv, mapSet, hd]
  · simp only [h, if_false, Option.some.injEq] at hid
    subst hid
    by_cases ha : len t.Applications = 0
    · have hua : ¬ r.userAgent = "" := by
        rcases hcheck with h1 | h1
        · exact absurd ha h1
        · exact h1
      simp [addTask, hdec, h, ha, hua, hv, mapSet, hd, append_of_len_zero]
    · simp [addTask, hdec, h, ha, hv, mapSet, hd]

theorem getTask_of_some (m : TaskMap) (r : Request) (v : Task)
    (h : mapGet m r.urlParamId = some v) :
    getTask m r =
      ({ status := 200, contentType := "application/json", body := encodeTask v }, m) := by
  simp [getTask, h, jsonMarshalTask]

theorem getTask_of_none (m : TaskMap) (r : Request) (h : mapGet m r.urlParamId = none) :
    getTask m r =
      (httpError ("No task found with id = [" ++ r.urlParamId ++ "]. Nothing to show.") 400,
        m) := by
  simp [getTask, h]

theorem deleteTask_of_some (m : TaskMap) (r : Request) (v : Task)
    (h : mapGet m r.urlParamId = some v) :
    deleteTask m r =
      ({ status := 200, contentType := "application/json", body := "" },
        mapDelete m r.urlParamId) := by
  simp [deleteTask, h, mapGet_mapDelete_self]

theorem deleteTask_of_none (m : TaskMap) (r : Request) (h : mapGet m r.urlParamId = none) :
    deleteTask m r =
      (httpError ("No task found with id = [" ++ r.urlParamId ++ "]. Nothing to delete.") 400,
        m) := by
  simp [deleteTask, h]

theorem finalID_eq_some_iff (t : Task) (g : Except String String) (id : String) :
    finalID t g = some id ↔ ((t.ID ≠ "" ∧ id = t.ID) ∨ (t.ID = "" ∧ g = .ok id)) := by
  unfold finalID
  by_cases h : t.ID = ""
  · cases g with
    | error e => simp [h]
    | ok u => simp [h]
  · simp [h, eq_comm]

theorem accepted_iff (m : TaskMap) (r : Request) (g : Except String String) (t : Task)
    (hdec : r.decoded = .ok t) :
    Accepted m r g ↔
      ∃ id, finalID t g = some id ∧ (len t.Applications ≠ 0 ∨ r.userAgent ≠ "") ∧
        id ∉ mapKeys m := by
  constructor
  · rintro ⟨t2, id, h1, h2, h3, h4⟩
    rw [hdec] at h1
    cases h1
    exact ⟨id, (finalID_eq_some_iff t g id).2 h2, h3, h4⟩
  · rintro ⟨id, h2, h3, h4⟩
    exact ⟨t, id, hdec, (finalID_eq_some_iff t g id).1 h2, h3, h4⟩

theorem len_finalApplications (t : Task) (ua : String) :
    len (finalApplications t ua) ≠ 0 := by
  unfold finalApplications
  by_cases h : len t.Applications = 0
  · rw [if_pos h]; exact Nat.succ_ne_zero 0
  · rw [if_neg h]; exact h

/-- Every create request either leaves the map alone or is accepted and
adds one binding under a key that was absent. -/
theorem addTask_cases (m : TaskMap) (r : Request) (g : Except String String) :
    ((addTask m r g).1.status = 400 ∧ (addTask m r g).2 = m ∧ ¬ Accepted m r g) ∨
    (∃ t id, r.decoded = .ok t ∧ finalID t g = some id ∧
      (len t.Applications ≠ 0 ∨ r.userAgent ≠ "") ∧ id ∉ mapKeys m ∧ Accepted m r g ∧
      addTask m r g =
        ({ status := 201, contentType := "application/json", body := "" },
          (id, createdTask t id r.userAgent) :: m)) := by
  cases hdec : r.decoded with
  | error err =>
    left
    rw [addTask_of_decode_error m r g err hdec]
    refine ⟨rfl, rfl, ?_⟩
    rintro ⟨t, id, h1, _⟩
    rw [hdec] at h1
    cases h1
  | ok t =>
    rw [accepted_iff m r g t hdec]
    cases hid : finalID t g with
    | none =>
      left
      rw [addTask_of_no_id m r g t hdec hid]
      exact ⟨rfl, rfl, by simp⟩
    | some id =>
      by_cases hcheck : len t.Applications ≠ 0 ∨ r.userAgent ≠ ""
      · by_cases hkey : id ∈ mapKeys m
        · left
          rw [addTask_of_conflict m r g t id hdec hid hcheck hkey]
          refine ⟨rfl, rfl, ?_⟩
          rintro ⟨id2, h1, _, h3⟩
          cases h1
          exact h3 hkey
        · right
          exact ⟨t, id, rfl, hid, hcheck, hkey, ⟨id, rfl, hcheck, hkey⟩,
            addTask_of_fresh m r g t id hdec hid hcheck hkey⟩
      · left
        have h0 : len t.Applications = 0 := by
          by_contra h; exact hcheck (Or.inl h)
        have h1 : r.userAgent = "" := by
          by_contra h; exact hcheck (Or.inr h)
        rw [addTask_of_no_applications m r g t id hdec hid h0 h1]
        refine ⟨rfl, rfl, ?_⟩
        rintro ⟨id2, _, h3, _⟩
        exact hcheck h3

theorem finalID_of_ne (t : Task) (g : Except String String) (h : t.ID ≠ "") :
    finalID t g = some t.ID :=
  (finalID_eq_some_iff t g t.ID).2 (Or.inl ⟨h, rfl⟩)

theorem finalID_of_generated (t : Task) (u : String) (h : t.ID = "") :
    finalID t (.ok u) = some u :=
  (finalID_eq_some_iff t (.ok u) u).2 (Or.inr ⟨h, rfl⟩)

theorem addTask_userAgent_unused (m : TaskMap) (r : Request) (g : Except String String)
    (t : Task) (hdec : r.decoded = .ok t) (ha : len t.Applications ≠ 0) (ua : String) :
    addTask m { r with userAgent := ua } g = addTask m r g := by
  by_cases h : t.ID = ""
  · cases g with
    | error e => simp [addTask, hdec, h]
    | ok u => simp [addTask, hdec, h, ha]
  · simp [addTask, hdec, h, ha]

theorem storeInvariant_nil : StoreInvariant [] := by
  intro k t h
  cases h

theorem storeInvariant_cons (k : String) (v : Task) (m : TaskMap) (hk : k = v.ID)
    (hv : len v.Applications ≠ 0) (hm : StoreInvariant m) : StoreInvariant ((k, v) :: m) := by
  intro k2 t h
  rw [mapGet_cons] at h
  by_cases h2 : k = k2
  · rw [if_pos h2] at h
    cases h
    exact ⟨h2 ▸ hk, hv⟩
  · rw [if_neg h2] at h
    exact hm k2 t h

theorem storeInvariant_mapDelete (m : TaskMap) (id : String) (hm : StoreInvariant m) :
    StoreInvariant (mapDelete m id) := by
  intro k t h
  by_cases hk : k = id
  · rw [hk, mapGet_mapDelete_self] at h
    cases h
  · rw [mapGet_mapDelete_ne m id k hk] at h
    exact hm k t h

theorem getTasks_snd (m : TaskMap) (r : Request) : (getTasks m r).2 = m := rfl

theorem getTask_snd (m : TaskMap) (r : Request) : (getTask m r).2 = m := by
  cases h : mapGet m r.urlParamId with
  | none => rw [getTask_of_none m r h]
  | some v => rw [getTask_of_some m r v h]

theorem head_ne_of_append (a b c d : String) (x y : Char) (xs ys : List Char)
    (ha : a.data = x :: xs) (hc : c.data = y :: ys) (hxy : x ≠ y) : a ++ b ≠ c ++ d := by
  intro h
  have h2 := congrArg String.data h
  rw [String.data_append, String.data_append, ha, hc] at h2
  exact hxy (List.cons.inj h2).1

theorem mapKeys_mapDelete_sublist (m : TaskMap) (id : String) :
    (mapKeys (mapDelete m id)).Sublist (mapKeys m) :=
  List.Sublist.map Prod.fst (List.filter_sublist m)

/-- The association list stays a map: from the seed, no sequence of requests
produces two bindings of one key. -/
theorem mapKeys_nodup_reachable (calls : List Call) : (mapKeys (run tasks calls)).Nodup := by
  have hstep : ∀ m c, (mapKeys m).Nodup → (mapKeys (serve m c).2).Nodup := by
    intro m c hm
    cases c with
    | getTasks r => exact hm
    | getTask r =>
      show (mapKeys (getTask m r).2).Nodup
      rw [getTask_snd]; exact hm
    | deleteTask r =>
      show (mapKeys (deleteTask m r).2).Nodup
      cases h : mapGet m r.urlParamId with
      | none => rw [deleteTask_of_none m r h]; exact hm
      | some v =>
        rw [deleteTask_of_some m r v h]
        exact hm.sublist (mapKeys_mapDelete_sublist m r.urlParamId)
    | addTask r g =>
      show (mapKeys (addTask m r g).2).Nodup
      rcases addTask_cases m r g with ⟨_, h2, _⟩ | ⟨t, id, _, _, _, hkey, _, heq⟩
      · rw [h2]; exact hm
      · rw [heq]
        exact List.nodup_cons.2 ⟨hkey, hm⟩
  have hrun : ∀ calls m, (mapKeys m).Nodup → (mapKeys (run m calls)).Nodup := by
    intro calls
    induction calls with
    | nil => exact fun m hm => hm
    | cons c cs ih => exact fun m hm => ih (serve m c).2 (hstep m c hm)
  exact hrun calls tasks (by decide)

/-! ## The claims -/

/-- Claim C1, as amended. A create request whose body parses to a task with a
non-empty id that is already a key is answered 400 and leaves the collection
exactly as it was, whatever its description, note, applications and user
agent. The 400 is the id-conflict error when the applications or the user
agent are non-empty; when both are empty it is the missing-applications
error, which is checked first. -/
theorem addTask_existing_id (m : TaskMap) (r : Request) (g : Except String String) (t : Task)
    (hdec : r.decoded = .ok t) (hne : t.ID ≠ "") (hkey : t.ID ∈ mapKeys m) :
    (addTask m r g).1.status = 400 ∧ (addTask m r g).2 = m ∧
    (∀ k, mapGet (addTask m r g).2 k = mapGet m k) ∧
    ((len t.Applications ≠ 0 ∨ r.userAgent ≠ "") →
      (addTask m r g).1 =
        httpError ("Cant create task. ID conflict, task with ID = [" ++ t.ID ++
          "] already exists.") 400) ∧
    ((len t.Applications = 0 ∧ r.userAgent = "") →
      (addTask m r g).1 =
        httpError "No Applications data in request, and cant get data from User-Agent Header"
          400) := by
  have hid := finalID_of_ne t g hne
  by_cases hcheck : len t.Applications ≠ 0 ∨ r.userAgent ≠ ""
  · rw [addTask_of_conflict m r g t t.ID hdec hid hcheck hkey]
    refine ⟨rfl, rfl, fun _ => rfl, fun _ => rfl, ?_⟩
    rintro ⟨h0, h1⟩
    rcases hcheck with h | h
    · exact absurd h0 h
    · exact absurd h1 h
  · have h0 : len t.Applications = 0 := by
      by_contra h; exact hcheck (Or.inl h)
    have h1 : r.userAgent = "" := by
      by_contra h; exact hcheck (Or.inr h)
    rw [addTask_of_no_applications m r g t t.ID hdec hid h0 h1]
    exact ⟨rfl, rfl, fun _ => rfl, fun h => absurd h hcheck, fun _ => rfl⟩

/-- Claim C1, witness: on the seeded collection a request for the existing id
"1" with applications of its own is refused with the id-conflict error. -/
theorem addTask_existing_id_witness :
    (addTask tasks
      { decoded := .ok { ID := "1", Description := "d", Note := "n",
                         Applications := some ["vim"] },
        userAgent := "curl", urlParamId := "" } (.ok sampleUUID)).1.status = 400 ∧
    (addTask tasks
      { decoded := .ok { ID := "1", Description := "d", Note := "n",
                         Applications := some ["vim"] },
        userAgent := "curl", urlParamId := "" } (.ok sampleUUID)).2 = tasks :=
  have h := addTask_existing_id tasks
    { decoded := .ok { ID := "1", Description := "d", Note := "n",
                       Applications := some ["vim"] },
      userAgent := "curl", urlParamId := "" } (.ok sampleUUID)
    { ID := "1", Description := "d", Note := "n", Applications := some ["vim"] }
    rfl (by decide) (by decide)
  ⟨h.1, h.2.1⟩

/-- Claim C1, counterexample to the claim as stated: on the seeded collection
a request with the existing id "1", no applications and no user agent parses
and is refused with 400, but the error it gets is the missing-applications
one, not the id conflict. -/
theorem addTask_existing_id_not_conflict :
    postExistingIdNoAgent.decoded =
      .ok { ID := "1", Description := "", Note := "", Applications := none } ∧
    "1" ∈ mapKeys tasks ∧
    (addTask tasks postExistingIdNoAgent (.ok sampleUUID)).1 ≠
      httpError "Cant create task. ID conflict, task with ID = [1] already exists." 400 ∧
    (addTask tasks postExistingIdNoAgent (.ok sampleUUID)).1 =
      httpError "No Applications data in request, and cant get data from User-Agent Header"
        400 := by
  refine ⟨rfl, by decide, by decide, by decide⟩

/-- Claim C2. Create followed by get is a round trip: a create request whose
body parses, with applications or a user agent, and whose id is non-empty and
not yet a key, is answered 201, and a get for that id served next is answered
200 with the JSON of exactly that task: the id, description and note of the
request, and its applications when it supplied any (the user agent alone
otherwise). -/
theorem addTask_then_getTask (m : TaskMap) (r q : Request) (g : Except String String)
    (t : Task) (hdec : r.decoded = .ok t)
    (hvalid : len t.Applications ≠ 0 ∨ r.userAgent ≠ "")
    (hne : t.ID ≠ "") (hfresh : t.ID ∉ mapKeys m) (hq : q.urlParamId = t.ID) :
    (addTask m r g).1.status = 201 ∧
    (getTask (addTask m r g).2 q).1 =
      { status := 200, contentType := "application/json",
        body := encodeTask
          { ID := t.ID, Description := t.Description, Note := t.Note,
            Applications :=
              if len t.Applications = 0 then some [r.userAgent] else t.Applications } } ∧
    (len t.Applications ≠ 0 → (getTask (addTask m r g).2 q).1.body = encodeTask t) := by
  rw [addTask_of_fresh m r g t t.ID hdec (finalID_of_ne t g hne) hvalid hfresh]
  have hget : mapGet ((t.ID, createdTask t t.ID r.userAgent) :: m) q.urlParamId =
      some (createdTask t t.ID r.userAgent) := by
    rw [mapGet_cons, if_pos hq.symm]
  refine ⟨rfl, ?_, ?_⟩
  · rw [getTask_of_some _ q _ hget]
    rfl
  · intro ha
    rw [getTask_of_some _ q _ hget]
    simp [createdTask, finalApplications, ha]

/-- Claim C2, witness: a full task with the fresh id "3" is created on the
seeded collection and read back as sent. -/
theorem addTask_then_getTask_witness :
    (addTask tasks postFullTask (.ok sampleUUID)).1.status = 201 ∧
    (getTask (addTask tasks postFullTask (.ok sampleUUID)).2 (requestFor "3")).1 =
      { status := 200, contentType := "application/json",
        body := "\x7b\"id\":\"3\",\"description\":\"d\",\"note\":\"n\",\"applications\":[\"vim\"]\x7d" } :=
  have h := addTask_then_getTask tasks postFullTask (requestFor "3") (.ok sampleUUID)
    { ID := "3", Description := "d", Note := "n", Applications := some ["vim"] }
    rfl (by decide) (by decide) (by decide) rfl
  ⟨h.1, h.2.1.trans (by decide)⟩

/-- Claim C3. Full outcome of a create request. It is answered 201 with an
empty body exactly when the four conditions hold (the body parses, an id is
supplied or generated, applications or a user agent are present, the final id
is not a key); the collection is then the old one plus the single binding of
the final id to the created task. In every other case the answer is 400 and
the collection is unchanged, the error being that of the first check that
fails, in the order parse, id generation, applications, conflict. -/
theorem addTask_outcome (m : TaskMap) (r : Request) (g : Except String String) :
    (((addTask m r g).1.status = 201 ∧ (addTask m r g).1.body = "") ↔ Accepted m r g) ∧
    (Accepted m r g →
      ∃ t id, r.decoded = .ok t ∧ finalID t g = some id ∧
        (addTask m r g).2 = (id, createdTask t id r.userAgent) :: m ∧
        ∀ k, mapGet (addTask m r g).2 k =
          if k = id then some (createdTask t id r.userAgent) else mapGet m k) ∧
    (¬ Accepted m r g → (addTask m r g).1.status = 400 ∧ (addTask m r g).2 = m) ∧
    (∀ err, r.decoded = .error err → (addTask m r g).1 = httpError err 400) ∧
    (∀ t, r.decoded = .ok t → finalID t g = none →
      (addTask m r g).1 = httpError "Cant create ID." 400) ∧
    (∀ t id, r.decoded = .ok t → finalID t g = some id →
      len t.Applications = 0 → r.userAgent = "" →
      (addTask m r g).1 =
        httpError "No Applications data in request, and cant get data from User-Agent Header"
          400) ∧
    (∀ t id, r.decoded = .ok t → finalID t g = some id →
      (len t.Applications ≠ 0 ∨ r.userAgent ≠ "") → id ∈ mapKeys m →
      (addTask m r g).1 =
        httpError ("Cant create task. ID conflict, task with ID = [" ++ id ++
          "] already exists.") 400) := by
  refine ⟨?_, ?_, ?_, ?_, ?_, ?_, ?_⟩
  · rcases addTask_cases m r g with ⟨h1, _, h3⟩ | ⟨t, id, _, _, _, _, hacc, heq⟩
    · constructor
      · rintro ⟨h, _⟩
        rw [h1] at h
        exact absurd h (by decide)
      · exact fun h => absurd h h3
    · exact ⟨fun _ => hacc, fun _ => by rw [heq]; exact ⟨rfl, rfl⟩⟩
  · intro hacc
    rcases addTask_cases m r g with ⟨_, _, h3⟩ | ⟨t, id, hdec, hid, _, _, _, heq⟩
    · exact absurd hacc h3
    · refine ⟨t, id, hdec, hid, by rw [heq], fun k => ?_⟩
      rw [heq]
      show mapGet ((id, createdTask t id r.userAgent) :: m) k = _
      rw [mapGet_cons]
      by_cases hk : k = id
      · rw [if_pos hk.symm, if_pos hk]
      · rw [if_neg (fun h => hk h.symm), if_neg hk]
  · intro hrej
    rcases addTask_cases m r g with ⟨h1, h2, _⟩ | ⟨_, _, _, _, _, _, hacc, _⟩
    · exact ⟨h1, h2⟩
    · exact absurd hacc hrej
  · intro err hdec
    rw [addTask_of_decode_error m r g err hdec]
  · intro t hdec hid
    rw [addTask_of_no_id m r g t hdec hid]
  · intro t id hdec hid h0 h1
    rw [addTask_of_no_applications m r g t id hdec hid h0 h1]
  · intro t id hdec hid hcheck hkey
    rw [addTask_of_conflict m r g t id hdec hid hcheck hkey]

/-- Claim C4. Deleting an id that is a key is answered 200 with an empty
body; the collection afterwards is the one before without that key, every
other binding unchanged; a get for that id served next is answered 400, the
not-found error. -/
theorem deleteTask_existing (m : TaskMap) (r q : Request)
    (hkey : r.urlParamId ∈ mapKeys m) (hq : q.urlParamId = r.urlParamId) :
    (deleteTask m r).1.status = 200 ∧ (deleteTask m r).1.body = "" ∧
    (∀ k, mapGet (deleteTask m r).2 k = if k = r.urlParamId then none else mapGet m k) ∧
    r.urlParamId ∉ mapKeys (deleteTask m r).2 ∧
    (getTask (deleteTask m r).2 q).1.status = 400 ∧
    (getTask (deleteTask m r).2 q).1 =
      httpError ("No task found with id = [" ++ r.urlParamId ++ "]. Nothing to show.") 400 := by
  obtain ⟨v, hv⟩ := (mapGet_isSome_iff m r.urlParamId).2 hkey
  rw [deleteTask_of_some m r v hv]
  have hnone : mapGet (mapDelete m r.urlParamId) q.urlParamId = none := by
    rw [hq]; exact mapGet_mapDelete_self m r.urlParamId
  refine ⟨rfl, rfl, fun k => ?_, not_mem_mapKeys_mapDelete m r.urlParamId, ?_, ?_⟩
  · show mapGet (mapDelete m r.urlParamId) k = _
    by_cases hk : k = r.urlParamId
    · rw [if_pos hk, hk]; exact mapGet_mapDelete_self m r.urlParamId
    · rw [if_neg hk]; exact mapGet_mapDelete_ne m r.urlParamId k hk
  · rw [getTask_of_none _ q hnone]; rfl
  · rw [getTask_of_none _ q hnone, hq]

/-- Claim C4, witness: from the seeded collection, deleting "1" and then
getting "1" is answered 400 while task "2" is still stored. -/
theorem deleteTask_existing_witness :
    "1" ∈ mapKeys tasks ∧
    (deleteTask tasks (requestFor "1")).1.status = 200 ∧
    (getTask (deleteTask tasks (requestFor "1")).2 (requestFor "1")).1.status = 400 ∧
    mapGet (deleteTask tasks (requestFor "1")).2 "2" = mapGet tasks "2" ∧
    (getTask (deleteTask tasks (requestFor "1")).2 (requestFor "2")).1.status = 200 :=
  have h := deleteTask_existing tasks (requestFor "1") (requestFor "1") (by decide) rfl
  ⟨by decide, h.1, h.2.2.2.2.1, h.2.2.1 "2", by decide⟩

/-- Claim C5. Deleting an id that is not a key is answered 400 with the
nothing-to-delete error and leaves the collection exactly as it was. -/
theorem deleteTask_absent (m : TaskMap) (r : Request) (h : r.urlParamId ∉ mapKeys m) :
    (deleteTask m r).1.status = 400 ∧
    (deleteTask m r).1 =
      httpError ("No task found with id = [" ++ r.urlParamId ++ "]. Nothing to delete.") 400 ∧
    (deleteTask m r).2 = m := by
  rw [deleteTask_of_none m r ((mapGet_eq_none_iff m r.urlParamId).2 h)]
  exact ⟨rfl, rfl, rfl⟩

/-- Claim C5, witness: deleting "7" from the seeded collection. -/
theorem deleteTask_absent_witness :
    "7" ∉ mapKeys tasks ∧
    (deleteTask tasks (requestFor "7")).1.status = 400 ∧
    (deleteTask tasks (requestFor "7")).2 = tasks :=
  have h := deleteTask_absent tasks (requestFor "7") (by decide)
  ⟨by decide, h.1, h.2.2⟩

/-- Claim C6. For an accepted create request (201) whose body parses, the
task stored under the final id has as applications exactly the one-element
sequence holding the user agent when the request has an empty applications
list (absent, null or of length zero) and a non-empty user agent; when the
request supplies applications, the stored ones are the supplied ones and the
outcome does not depend on the user agent. -/
theorem addTask_stored_applications (m : TaskMap) (r : Request) (g : Except String String)
    (t : Task) (hdec : r.decoded = .ok t) (hacc : (addTask m r g).1.status = 201) :
    ∃ id stored, finalID t g = some id ∧ mapGet (addTask m r g).2 id = some stored ∧
      (len t.Applications = 0 → r.userAgent ≠ "" →
        stored.Applications = some [r.userAgent]) ∧
      (len t.Applications ≠ 0 →
        stored.Applications = t.Applications ∧
        ∀ ua, addTask m { r with userAgent := ua } g = addTask m r g) := by
  rcases addTask_cases m r g with ⟨h1, _, _⟩ | ⟨t2, id, hdec2, hid, _, _, _, heq⟩
  · rw [h1] at hacc
    exact absurd hacc (by decide)
  · rw [hdec] at hdec2
    cases hdec2
    refine ⟨id, createdTask t id r.userAgent, hid, ?_, ?_, ?_⟩
    · rw [heq]
      show mapGet ((id, createdTask t id r.userAgent) :: m) id = _
      rw [mapGet_cons, if_pos rfl]
    · intro h0 _
      simp [createdTask, finalApplications, h0]
    · intro h0
      refine ⟨by simp [createdTask, finalApplications, h0], fun ua => ?_⟩
      exact addTask_userAgent_unused m r g t hdec h0 ua

/-- Claim C6, witness: the body with only a description, sent by "curl", is
stored under the generated id with applications ["curl"]. -/
theorem addTask_stored_applications_witness :
    (addTask tasks postDescriptionCurl (.ok sampleUUID)).1.status = 201 ∧
    ∃ id stored,
      finalID { ID := "", Description := "x", Note := "", Applications := none }
        (.ok sampleUUID) = some id ∧
      mapGet (addTask tasks postDescriptionCurl (.ok sampleUUID)).2 id = some stored ∧
      stored.Applications = some ["curl"] :=
  have h := addTask_stored_applications tasks postDescriptionCurl (.ok sampleUUID)
    { ID := "", Description := "x", Note := "", Applications := none } rfl (by decide)
  ⟨by decide, h.elim fun id h2 => h2.elim fun stored h3 =>
    ⟨id, stored, h3.1, h3.2.1, h3.2.2.1 rfl (by decide)⟩⟩

/-- Claim C7. A create request whose body parses with an empty applications
list and whose user agent is empty is answered 400 and inserts nothing: the
collection afterwards is the collection before, whether the id was supplied
(fresh or not) or had to be generated. -/
theorem addTask_no_applications_no_agent (m : TaskMap) (r : Request)
    (g : Except String String) (t : Task) (hdec : r.decoded = .ok t)
    (happs : len t.Applications = 0) (hua : r.userAgent = "") :
    (addTask m r g).1.status = 400 ∧ (addTask m r g).2 = m ∧
    (∀ id, finalID t g = some id →
      (addTask m r g).1 =
        httpError "No Applications data in request, and cant get data from User-Agent Header"
          400) := by
  cases hid : finalID t g with
  | none =>
    rw [addTask_of_no_id m r g t hdec hid]
    exact ⟨rfl, rfl, fun id h => by cases h⟩
  | some id =>
    rw [addTask_of_no_applications m r g t id hdec hid happs hua]
    exact ⟨rfl, rfl, fun _ _ => rfl⟩

/-- Claim C7, witness: on the seeded collection, without user agent and
without applications, a request with the fresh id "3", one with the existing
id "1" and one with no id (an id having been generated) are all refused and
leave the collection as it was. -/
theorem addTask_no_applications_no_agent_witness :
    ((addTask tasks postFreshIdNoAgent (.ok sampleUUID)).1.status = 400 ∧
      (addTask tasks postFreshIdNoAgent (.ok sampleUUID)).2 = tasks) ∧
    ((addTask tasks postExistingIdNoAgent (.ok sampleUUID)).1.status = 400 ∧
      (addTask tasks postExistingIdNoAgent (.ok sampleUUID)).2 = tasks) ∧
    ((addTask tasks postNoIdNoAgent (.ok sampleUUID)).1.status = 400 ∧
      (addTask tasks postNoIdNoAgent (.ok sampleUUID)).2 = tasks) :=
  have h1 := addTask_no_applications_no_agent tasks postFreshIdNoAgent (.ok sampleUUID)
    { ID := "3", Description := "", Note := "", Applications := none } rfl rfl rfl
  have h2 := addTask_no_applications_no_agent tasks postExistingIdNoAgent (.ok sampleUUID)
    { ID := "1", Description := "", Note := "", Applications := none } rfl rfl rfl
  have h3 := addTask_no_applications_no_agent tasks postNoIdNoAgent (.ok sampleUUID)
    { ID := "", Description := "x", Note := "", Applications := some [] } rfl rfl rfl
  ⟨⟨h1.1, h1.2.1⟩, ⟨h2.1, h2.2.1⟩, ⟨h3.1, h3.2.1⟩⟩

/-- Claim C8, as amended. For a create request whose body parses with an empty
id and that passes the applications check, when the generator returns an
identifier: if that identifier is not a key of the collection, the answer is
201 and a get for the generated id served next is answered 200 with the
created task; if it is already a key, the answer is the id-conflict 400 and
the collection is unchanged. Hence whenever the answer is 201 the generated
id was not a key before the request. -/
theorem addTask_generated_id (m : TaskMap) (r q : Request) (t : Task) (u : String)
    (hdec : r.decoded = .ok t) (hempty : t.ID = "")
    (hcheck : len t.Applications ≠ 0 ∨ r.userAgent ≠ "") (hq : q.urlParamId = u) :
    (u ∉ mapKeys m →
      (addTask m r (.ok u)).1.status = 201 ∧
      mapGet (addTask m r (.ok u)).2 u = some (createdTask t u r.userAgent) ∧
      (getTask (addTask m r (.ok u)).2 q).1 =
        { status := 200, contentType := "application/json",
          body := encodeTask (createdTask t u r.userAgent) }) ∧
    (u ∈ mapKeys m →
      (addTask m r (.ok u)).1 =
        httpError ("Cant create task. ID conflict, task with ID = [" ++ u ++
          "] already exists.") 400 ∧
      (addTask m r (.ok u)).2 = m) ∧
    ((addTask m r (.ok u)).1.status = 201 → u ∉ mapKeys m) := by
  have hid := finalID_of_generated t u hempty
  have hconf : u ∈ mapKeys m →
      addTask m r (.ok u) =
        (httpError ("Cant create task. ID conflict, task with ID = [" ++ u ++
          "] already exists.") 400, m) :=
    fun hkey => addTask_of_conflict m r (.ok u) t u hdec hid hcheck hkey
  refine ⟨fun hkey => ?_, fun hkey => ?_, fun hacc hkey => ?_⟩
  · rw [addTask_of_fresh m r (.ok u) t u hdec hid hcheck hkey]
    have hget : mapGet ((u, createdTask t u r.userAgent) :: m) q.urlParamId =
        some (createdTask t u r.userAgent) := by
      rw [mapGet_cons, if_pos hq.symm]
    refine ⟨rfl, ?_, ?_⟩
    · show mapGet ((u, createdTask t u r.userAgent) :: m) u = _
      rw [mapGet_cons, if_pos rfl]
    · rw [getTask_of_some _ q _ hget]
  · rw [hconf hkey]
    exact ⟨rfl, rfl⟩
  · rw [hconf hkey] at hacc
    exact absurd (show (400 : Nat) = 201 from hacc) (by decide)

/-- Claim C8, witness: on the seeded collection the body with only a
description, sent by "curl", is stored under the generated id and read back. -/
theorem addTask_generated_id_witness :
    sampleUUID ∉ mapKeys tasks ∧
    (addTask tasks postDescriptionCurl (.ok sampleUUID)).1.status = 201 ∧
    (getTask (addTask tasks postDescriptionCurl (.ok sampleUUID)).2
      (requestFor sampleUUID)).1.status = 200 :=
  have h := addTask_generated_id tasks postDescriptionCurl (requestFor sampleUUID)
    { ID := "", Description := "x", Note := "", Applications := none } sampleUUID
    rfl rfl (by decide) rfl
  ⟨by decide, (h.1 (by decide)).1, by rw [(h.1 (by decide)).2.2]⟩

/-- Claim C8, counterexample to the claim as stated: a client first creates a
task under an id of its own choice that has the form of a version-7 UUID;
a later request without id, for which the generator returns that same
identifier, parses, passes the applications check, and is answered 400
instead of 201, the generated id being a key of the collection already. -/
theorem addTask_generated_id_clash :
    (addTask tasks postClientChosenUUID (.ok otherUUID)).1.status = 201 ∧
    postDescriptionCurl.decoded =
      .ok { ID := "", Description := "x", Note := "", Applications := none } ∧
    postDescriptionCurl.userAgent ≠ "" ∧
    sampleUUID ∈ mapKeys tasksWithClientUUID ∧
    (addTask tasksWithClientUUID postDescriptionCurl (.ok sampleUUID)).1.status = 400 ∧
    (addTask tasksWithClientUUID postDescriptionCurl (.ok sampleUUID)).1.status ≠ 201 := by
  refine ⟨by decide, rfl, by decide, by decide, by decide, by decide⟩

/-- Claim C9. The consistency failure after a delete cannot happen: once the
key is removed the second lookup finds nothing, so a delete request is never
answered with the something-goes-wrong error; it is answered 400 exactly when
the id was not a key, and that 400 is the nothing-to-delete error. -/
theorem deleteTask_recheck_unreachable (m : TaskMap) (r : Request) :
    mapGet (mapDelete m r.urlParamId) r.urlParamId = none ∧
    (deleteTask m r).1 ≠
      httpError ("Something goes wrong when we try to delete task with id = [" ++
        r.urlParamId ++ "].") 400 ∧
    ((deleteTask m r).1.status = 400 ↔ r.urlParamId ∉ mapKeys m) ∧
    ((deleteTask m r).1.status = 400 →
      (deleteTask m r).1 =
        httpError ("No task found with id = [" ++ r.urlParamId ++ "]. Nothing to delete.")
          400) ∧
    ((deleteTask m r).1.status ≠ 400 →
      (deleteTask m r).1 = { status := 200, contentType := "application/json", body := "" }) := by
  refine ⟨mapGet_mapDelete_self m r.urlParamId, ?_⟩
  cases h : mapGet m r.urlParamId with
  | none =>
    have hkey := (mapGet_eq_none_iff m r.urlParamId).1 h
    rw [deleteTask_of_none m r h]
    refine ⟨?_, ⟨fun _ => hkey, fun _ => rfl⟩, fun _ => rfl, fun h2 => absurd rfl h2⟩
    intro heq
    have hbody := congrArg Response.body heq
    simp only [httpError] at hbody
    rw [String.append_assoc, String.append_assoc, String.append_assoc,
      String.append_assoc] at hbody
    exact head_ne_of_append _ _ _ _ 'N' 'S' _ _ rfl rfl (by decide) hbody
  | some v =>
    have hkey := (mapGet_isSome_iff m r.urlParamId).1 ⟨v, h⟩
    rw [deleteTask_of_some m r v h]
    refine ⟨?_, ⟨fun h2 => ?_, fun h2 => absurd hkey h2⟩, fun h2 => ?_, fun _ => rfl⟩
    · intro heq
      have hst := congrArg Response.status heq
      exact absurd (show (200 : Nat) = 400 from hst) (by decide)
    · exact absurd (show (200 : Nat) = 400 from h2) (by decide)
    · exact absurd (show (200 : Nat) = 400 from h2) (by decide)

/-- Claim C10. Store invariant: the seeded collection satisfies it, every
request served by any of the four handlers preserves it, and so it holds in
every collection reached from the seed by a sequence of requests: each key is
the ID of the task stored under it and each stored task has a non-empty
applications list. -/
theorem storeInvariant_reachable :
    StoreInvariant tasks ∧
    (∀ m c, StoreInvariant m → StoreInvariant (serve m c).2) ∧
    (∀ calls, StoreInvariant (run tasks calls)) := by
  have hseed : StoreInvariant tasks :=
    storeInvariant_cons _ _ _ rfl (by decide)
      (storeInvariant_cons _ _ _ rfl (by decide) storeInvariant_nil)
  have hstep : ∀ m c, StoreInvariant m → StoreInvariant (serve m c).2 := by
    intro m c hm
    cases c with
    | getTasks r => exact hm
    | getTask r =>
      show StoreInvariant (getTask m r).2
      rw [getTask_snd]; exact hm
    | deleteTask r =>
      show StoreInvariant (deleteTask m r).2
      cases h : mapGet m r.urlParamId with
      | none => rw [deleteTask_of_none m r h]; exact hm
      | some v =>
        rw [deleteTask_of_some m r v h]
        exact storeInvariant_mapDelete m r.urlParamId hm
    | addTask r g =>
      show StoreInvariant (addTask m r g).2
      rcases addTask_cases m r g with ⟨_, h2, _⟩ | ⟨t, id, _, _, _, _, _, heq⟩
      · rw [h2]; exact hm
      · rw [heq]
        exact storeInvariant_cons id _ m rfl (len_finalApplications t r.userAgent) hm
  have hrun : ∀ calls m, StoreInvariant m → StoreInvariant (run m calls) := by
    intro calls
    induction calls with
    | nil => exact fun m hm => hm
    | cons c cs ih => exact fun m hm => ih (serve m c).2 (hstep m c hm)
  exact ⟨hseed, hstep, fun calls => hrun calls tasks hseed⟩

end Precode
